import Mathlib

/-!
Verification model of `preprocess_svg.py` (OmniSVG-train).

The script is glue code around two external collaborators:
  * the `picosvg` subprocess, which reads an input SVG and writes simplified
    markup to standard output (here: to the freshly opened output file);
  * the `deepsvg` geometry library (`SVG.load_svg`, `zoom`, `normalize`,
    `simplify_arcs`, `simplify_heuristic`, `split`, `save_svg`).

We embed the script's own logic faithfully and model the collaborators by an
environment `Env` that fixes, per input path, the outcome of the subprocess
and of the geometry steps.  Paths are lists of components (`os.path.join`
becomes list append), the filesystem is a partial map from paths to file
data, and a geometry document records the trace of library methods applied
to it.
-/

namespace PreprocessSvg

/-- A filesystem path, as its list of components (`os.path.join a b` is
`a ++ b` for relative components; directories are implicit). -/
abbrev Path := List String

/-- Trace entry for one geometry-library method call on a document. -/
inductive GeomOp where
  | zoom (scale : Int)
  | normalize (bbox : Int × Int)
  | simplify_arcs
  | simplify_heuristic
  | split (max_dist : Int)
  deriving DecidableEq

/-- Modelled from the spec: the external geometry library's loaded document
object.  It records the ordered trace of method calls applied to it, and the
bounding box the document has been normalized to (`none` until a
`normalize` call fixes it).  `zoom` scales content, `simplify_arcs`,
`simplify_heuristic` and `split` rewrite paths; per the spec only
`normalize` (bounding-box normalization) changes the document's bounding
box. -/
structure SVG where
  ops : List GeomOp
  bbox : Option (Int × Int)
  deriving DecidableEq

/-- Modelled from the spec: `svg.zoom(scale)` scales the drawing content. -/
def SVG.zoom (svg : SVG) (scale : Int) : SVG :=
  { svg with ops := svg.ops ++ [GeomOp.zoom scale] }

/-- Modelled from the spec: `svg.normalize(Bbox(w, h))` fits the document to
the given bounding box. -/
def SVG.normalize (svg : SVG) (bbox : Int × Int) : SVG :=
  { ops := svg.ops ++ [GeomOp.normalize bbox], bbox := some bbox }

/-- Modelled from the spec: arc simplification rewrites paths only. -/
def SVG.simplify_arcs (svg : SVG) : SVG :=
  { svg with ops := svg.ops ++ [GeomOp.simplify_arcs] }

/-- Modelled from the spec: heuristic simplification rewrites paths only. -/
def SVG.simplify_heuristic (svg : SVG) : SVG :=
  { svg with ops := svg.ops ++ [GeomOp.simplify_heuristic] }

/-- Modelled from the spec: path splitting rewrites paths only. -/
def SVG.split (svg : SVG) (max_dist : Int) : SVG :=
  { svg with ops := svg.ops ++ [GeomOp.split max_dist] }

/-- `deepsvg.svglib.geom.Bbox(width, height)`: the target bounding box. -/
def Bbox (width height : Int) : Int × Int := (width, height)

/-- Contents of a file on disk: raw bytes of known size (as written by the
`picosvg` subprocess to the opened output file), or a serialized document
(as written by `save_svg`). -/
inductive FileData where
  | raw (size : Nat)
  | doc (svg : SVG)
  deriving DecidableEq

/-- The filesystem: a partial map from paths to file contents. -/
def FS := Path → Option FileData

/-- Write (create or overwrite) a file. -/
def FS.insert (fs : FS) (p : Path) (d : FileData) : FS :=
  fun q => if q = p then some d else fs q

/-- `os.remove` (the script only removes files it knows exist, and checks
`os.path.exists` first in the exception handler). -/
def FS.erase (fs : FS) (p : Path) : FS :=
  fun q => if q = p then none else fs q

/-- Outcome of running the `picosvg` subprocess on one input file, with its
standard output redirected to the opened output file: either it exits
non-zero (`subprocess.CalledProcessError`) having written `written` bytes,
or it succeeds having written `size` bytes. -/
inductive PicoOutcome where
  | fail (written : Nat)
  | ok (size : Nat)
  deriving DecidableEq

/-- Which geometry step, if any, raises an exception for a given input. -/
inductive GeomStep where
  | load
  | transform
  | save
  deriving DecidableEq

/-- The external world, fixed per input path: the `picosvg` outcome, whether
the load/transform/save steps raise, and the document `SVG.load_svg`
yields when it succeeds.  (Keying by input path is faithful: the
preprocessed output, hence the behaviour of the geometry steps on it, is a
function of the input file.) -/
structure Env where
  pico : Path → PicoOutcome
  geomFail : Path → Option GeomStep
  loadDoc : Path → SVG

/-- `preprocess_svg(input_path, output_path)` (lines 14-32): open the
output file for writing (creating/truncating it), run `picosvg input_path`
with stdout redirected to it; return `False` on `CalledProcessError`,
`True` otherwise.  Either way the opened file remains on disk with whatever
the subprocess wrote. -/
def preprocess_svg (env : Env) (input_path output_path : Path) (fs : FS) :
    Bool × FS :=
  match env.pico input_path with
  | PicoOutcome.fail written => (false, fs.insert output_path (FileData.raw written))
  | PicoOutcome.ok size => (true, fs.insert output_path (FileData.raw size))

/-- `process_svg` (lines 35-65): zoom, normalize to `Bbox(width, height)`,
and, when `simplify` is set, simplify arcs, simplify heuristically, and
split with `max_dist`, in that order. -/
def process_svg (svg : SVG) (scale : Int) (width height : Int)
    (simplify : Bool) (max_dist : Int) : SVG :=
  let svg := svg.zoom scale
  let svg := svg.normalize (Bbox width height)
  if simplify then
    let svg := svg.simplify_arcs
    let svg := svg.simplify_heuristic
    let svg := svg.split max_dist
    svg
  else
    svg

/-- `process_single_file` (lines 68-120): preprocess with picosvg (on
failure, return `False` -- the file opened by `preprocess_svg` is left in
place); remove the output and return `False` if it is empty; otherwise
load, transform and save, and on any exception in those steps remove the
output file (it exists at that point) and return `False`. -/
def process_single_file (env : Env) (input_path output_path : Path)
    (scale : Int) (width height : Int) (simplify : Bool) (max_dist : Int)
    (fs : FS) : Bool × FS :=
  match preprocess_svg env input_path output_path fs with
  | (false, fs1) => (false, fs1)
  | (true, fs1) =>
    match fs1 output_path with
    | some (FileData.raw 0) => (false, fs1.erase output_path)
    | _ =>
      match env.geomFail input_path with
      | some _ => (false, fs1.erase output_path)
      | none =>
        let svg := env.loadDoc input_path
        let svg := process_svg svg scale width height simplify max_dist
        (true, fs1.insert output_path (FileData.doc svg))

mutual

/-- A directory tree on disk: the files directly in a directory, and its
named subdirectories.  (Mutual with `DirForest`, the list of named
subtrees.) -/
inductive DirTree where
  | node (files : List String) (subdirs : DirForest)

/-- The named subdirectories of a directory. -/
inductive DirForest where
  | nil
  | cons (name : String) (tree : DirTree) (rest : DirForest)

end

mutual

/-- `os.walk(base)`, top-down: the pairs `(root, files)` it yields, the
base directory first, then each subdirectory recursively. -/
def walkT (base : Path) : DirTree → List (Path × List String)
  | DirTree.node files subdirs => (base, files) :: walkF base subdirs

/-- `os.walk` over a list of named subdirectories of `base`. -/
def walkF (base : Path) : DirForest → List (Path × List String)
  | DirForest.nil => []
  | DirForest.cons name tree rest => walkT (base ++ [name]) tree ++ walkF base rest

end

mutual

/-- The relative paths, within a tree, of its files whose names end in
".svg" (in `os.walk` order). -/
def svgRelT : DirTree → List Path
  | DirTree.node files subdirs =>
      (files.filter (fun f => f.endsWith ".svg")).map (fun f => [f]) ++ svgRelF subdirs

/-- `svgRelT` over a forest, each path prefixed with its subdirectory name. -/
def svgRelF : DirForest → List Path
  | DirForest.nil => []
  | DirForest.cons name tree rest =>
      (svgRelT tree).map (fun r => name :: r) ++ svgRelF rest

end

/-- `os.path.relpath(p, start)` for the case the script exercises, where
`start` is an ancestor of `p` (both as given, unnormalized): the remainder
of `p` after the `start` prefix. -/
def relpath (p start : Path) : Path :=
  if start <+: p then p.drop start.length else p

/-- The `(input_path, output_path)` pairs `process_directory` (lines
152-159) builds while walking `input_dir`: for each yielded `(root, files)`
and each `filename` in `files` ending in ".svg",
`input_path = os.path.join(root, filename)` and
`output_path = os.path.join(output_dir, os.path.relpath(input_path, input_dir))`. -/
def plannedPairs (input_dir output_dir : Path) (tree : DirTree) :
    List (Path × Path) :=
  (walkT input_dir tree).flatMap (fun rf =>
    (rf.2.filter (fun f => f.endsWith ".svg")).map (fun filename =>
      let input_path := rf.1 ++ [filename]
      let relative_path := relpath input_path input_dir
      (input_path, output_dir ++ relative_path)))

/-- The loop body of `process_directory` (lines 161-167): run
`process_single_file` on each pair in order, threading the filesystem and
accumulating `(success_count, failure_count)`. -/
def processFiles (env : Env) (scale : Int) (width height : Int)
    (simplify : Bool) (max_dist : Int) :
    List (Path × Path) → FS → Nat × Nat × FS
  | [], fs => (0, 0, fs)
  | (input_path, output_path) :: rest, fs =>
    match process_single_file env input_path output_path
        scale width height simplify max_dist fs with
    | (ok, fs1) =>
      match processFiles env scale width height simplify max_dist rest fs1 with
      | (success_count, failure_count, fs2) =>
        if ok then (success_count + 1, failure_count, fs2)
        else (success_count, failure_count + 1, fs2)

/-- `process_directory` (lines 123-169): walk `input_dir`, process every
".svg" file, and return `(success_count, failure_count)` with the final
filesystem.  (`os.makedirs(output_dir)` only creates directories, which the
path model leaves implicit.) -/
def process_directory (env : Env) (input_dir output_dir : Path)
    (scale : Int) (width height : Int) (simplify : Bool) (max_dist : Int)
    (tree : DirTree) (fs : FS) : (Nat × Nat) × FS :=
  match processFiles env scale width height simplify max_dist
      (plannedPairs input_dir output_dir tree) fs with
  | (success_count, failure_count, fs1) => ((success_count, failure_count), fs1)

/-- Index of the last occurrence of `c` in `l` (Python `str.rfind`,
`none` for -1). -/
def rfind (l : List Char) (c : Char) : Option Nat :=
  match l.reverse.findIdx? (fun x => x = c) with
  | some i => some (l.length - 1 - i)
  | none => none

/-- `os.path.splitext(p)` (posix): split `p` at the final dot of its last
component, except that dots leading that component do not start an
extension. -/
def splitext (p : String) : String × String :=
  let l := p.data
  let sepIndex : Int :=
    match rfind l '/' with
    | some i => (i : Int)
    | none => -1
  match rfind l '.' with
  | none => (p, "")
  | some dotIndex =>
    if sepIndex < (dotIndex : Int) then
      let filenameStart := (sepIndex + 1).toNat
      if ((l.drop filenameStart).take (dotIndex - filenameStart)).all
          (fun c => c == '.') then
        (p, "")
      else
        (String.mk (l.take dotIndex), String.mk (l.drop dotIndex))
    else
      (p, "")

/-- Lines 256-258 of `main`: the single-file output path when `--output`
is not given, `f"{base}_processed{ext}"` for `base, ext =
os.path.splitext(args.input)`. -/
def defaultOutputPath (input : String) : String :=
  match splitext input with
  | (base, ext) => base ++ "_processed" ++ ext

/-- The parsed command-line arguments (after argparse applies defaults:
`scale=1.0`, `width=200`, `height=200`, `max_dist=5`, `simplify=False`).
Paths appearing as arguments are modelled as `Path` values. -/
structure Args where
  input : Option Path
  output : Option Path
  input_dir : Option Path
  output_dir : Option Path
  scale : Int
  width : Int
  height : Int
  max_dist : Int
  simplify : Bool

/-- How a run of `main` ends: an argparse `parser.error` (usage message and
exit status 2), an explicit `exit(code)`, or normal completion. -/
inductive MainResult where
  | parserError
  | exited (code : Nat)
  | completed
  deriving DecidableEq

/-- `f"{input_dir}_processed"` (line 275), the default batch output
directory: the input directory's last component with `_processed`
appended. -/
def defaultOutputDir (input_dir : Path) : Path :=
  input_dir.dropLast ++ [(input_dir.getLast?).getD "" ++ "_processed"]

/-- `defaultOutputPath` lifted to component paths: `_processed` is inserted
before the extension of the last component. -/
def defaultOutputPathP (input : Path) : Path :=
  input.dropLast ++ [defaultOutputPath ((input.getLast?).getD "")]

/-- `main` (lines 172-286) after argument parsing: validate the mode flags,
then run single-file or batch processing.  `tree` is the directory tree
under `args.input_dir` in batch mode. -/
def mainRun (env : Env) (args : Args) (tree : DirTree) (fs : FS) :
    MainResult × FS :=
  match args.input, args.input_dir with
  | none, none => (MainResult.parserError, fs)
  | some _, some _ => (MainResult.parserError, fs)
  | some input, none =>
    let output :=
      match args.output with
      | none => defaultOutputPathP input
      | some o => o
    match process_single_file env input output
        args.scale args.width args.height args.simplify args.max_dist fs with
    | (true, fs1) => (MainResult.completed, fs1)
    | (false, fs1) => (MainResult.exited 1, fs1)
  | none, some input_dir =>
    let output_dir :=
      match args.output_dir with
      | none => defaultOutputDir input_dir
      | some o => o
    match process_directory env input_dir output_dir
        args.scale args.width args.height args.simplify args.max_dist tree fs with
    | (_, fs1) => (MainResult.completed, fs1)

/-! ### Basic lemmas about the model -/

theorem FS.insert_self (fs : FS) (p : Path) (d : FileData) :
    (fs.insert p d) p = some d := by
  simp [FS.insert]

theorem FS.erase_self (fs : FS) (p : Path) : (fs.erase p) p = none := by
  simp [FS.erase]

theorem process_svg_bbox (svg : SVG) (scale width height : Int)
    (simplify : Bool) (max_dist : Int) :
    (process_svg svg scale width height simplify max_dist).bbox
      = some (Bbox width height) := by
  cases simplify <;>
    simp [process_svg, SVG.zoom, SVG.normalize, SVG.simplify_arcs,
      SVG.simplify_heuristic, SVG.split]

/-- `process_single_file` when `picosvg` exits non-zero: failure is
reported, and the output file opened by `preprocess_svg` is left on disk
with the `written` bytes the subprocess produced. -/
theorem psf_pico_fail (env : Env) (input_path output_path : Path)
    (scale width height : Int) (simplify : Bool) (max_dist : Int) (fs : FS)
    (written : Nat) (h : env.pico input_path = PicoOutcome.fail written) :
    process_single_file env input_path output_path
        scale width height simplify max_dist fs
      = (false, fs.insert output_path (FileData.raw written)) := by
  simp [process_single_file, preprocess_svg, h]

/-- `process_single_file` when the preprocessed output is empty: the
output file is removed and failure is reported. -/
theorem psf_empty (env : Env) (input_path output_path : Path)
    (scale width height : Int) (simplify : Bool) (max_dist : Int) (fs : FS)
    (h : env.pico input_path = PicoOutcome.ok 0) :
    process_single_file env input_path output_path
        scale width height simplify max_dist fs
      = (false, (fs.insert output_path (FileData.raw 0)).erase output_path) := by
  simp [process_single_file, preprocess_svg, h, FS.insert_self]

/-- `process_single_file` when a geometry step raises: the exception is
caught, the output file is removed, and failure is reported. -/
theorem psf_geom_fail (env : Env) (input_path output_path : Path)
    (scale width height : Int) (simplify : Bool) (max_dist : Int) (fs : FS)
    (n : Nat) (step : GeomStep)
    (h : env.pico input_path = PicoOutcome.ok (n + 1))
    (hg : env.geomFail input_path = some step) :
    process_single_file env input_path output_path
        scale width height simplify max_dist fs
      = (false, (fs.insert output_path (FileData.raw (n + 1))).erase output_path) := by
  simp [process_single_file, preprocess_svg, h, hg, FS.insert_self]

/-- `process_single_file` on the success path: the loaded document is
transformed by `process_svg` and saved over the output file. -/
theorem psf_success (env : Env) (input_path output_path : Path)
    (scale width height : Int) (simplify : Bool) (max_dist : Int) (fs : FS)
    (n : Nat)
    (h : env.pico input_path = PicoOutcome.ok (n + 1))
    (hg : env.geomFail input_path = none) :
    process_single_file env input_path output_path
        scale width height simplify max_dist fs
      = (true, (fs.insert output_path (FileData.raw (n + 1))).insert output_path
          (FileData.doc (process_svg (env.loadDoc input_path)
            scale width height simplify max_dist))) := by
  simp [process_single_file, preprocess_svg, h, hg, FS.insert_self]

/-- Every processed file increments exactly one of the two counters. -/
theorem processFiles_sum (env : Env) (scale width height : Int)
    (simplify : Bool) (max_dist : Int) :
    ∀ (l : List (Path × Path)) (fs : FS),
      (processFiles env scale width height simplify max_dist l fs).1
        + (processFiles env scale width height simplify max_dist l fs).2.1
      = l.length := by
  intro l
  induction l with
  | nil => intro fs; simp [processFiles]
  | cons hd tl ih =>
    intro fs
    obtain ⟨input_path, output_path⟩ := hd
    rcases hps : process_single_file env input_path output_path
        scale width height simplify max_dist fs with ⟨ok, fs1⟩
    rcases hpf : processFiles env scale width height simplify max_dist tl fs1
      with ⟨s, f, fs2⟩
    have := ih fs1
    rw [hpf] at this
    simp only [processFiles, hps, hpf]
    cases ok <;> simp at this ⊢ <;> omega

theorem relpath_append (start rest : Path) :
    relpath (start ++ rest) start = rest := by
  simp [relpath, List.prefix_append, List.drop_left]

mutual

/-- Generalized over a `pre` offset below `input_dir`: the pairs built from
walking `input_dir ++ pre` are exactly the ".svg" files of the subtree,
each paired path-for-path under `input_dir` and `output_dir`. -/
theorem walkT_pairs (input_dir output_dir pre : Path) (t : DirTree) :
    ((walkT (input_dir ++ pre) t).flatMap (fun rf =>
      (rf.2.filter (fun f => f.endsWith ".svg")).map (fun filename =>
        (rf.1 ++ [filename], output_dir ++ relpath (rf.1 ++ [filename]) input_dir))))
    = (svgRelT t).map (fun rel =>
        (input_dir ++ (pre ++ rel), output_dir ++ (pre ++ rel))) := by
  cases t with
  | node files subdirs =>
    have ihf := walkF_pairs input_dir output_dir pre subdirs
    simp only [walkT, svgRelT, List.flatMap_cons, List.map_append, List.map_map, ihf]
    congr 1
    refine List.map_congr_left (fun f _ => ?_)
    rw [List.append_assoc, relpath_append]
    simp

/-- `walkT_pairs` over a forest of subdirectories. -/
theorem walkF_pairs (input_dir output_dir pre : Path) (d : DirForest) :
    ((walkF (input_dir ++ pre) d).flatMap (fun rf =>
      (rf.2.filter (fun f => f.endsWith ".svg")).map (fun filename =>
        (rf.1 ++ [filename], output_dir ++ relpath (rf.1 ++ [filename]) input_dir))))
    = (svgRelF d).map (fun rel =>
        (input_dir ++ (pre ++ rel), output_dir ++ (pre ++ rel))) := by
  cases d with
  | nil => simp [walkF, svgRelF]
  | cons name tree rest =>
    have iht := walkT_pairs input_dir output_dir (pre ++ [name]) tree
    have ihf := walkF_pairs input_dir output_dir pre rest
    simp only [walkF, svgRelF, List.flatMap_append, List.map_append, List.map_map]
    rw [show (input_dir ++ pre) ++ [name] = input_dir ++ (pre ++ [name]) by
      rw [List.append_assoc]]
    rw [iht, ihf]
    congr 1
    refine List.map_congr_left (fun rel _ => ?_)
    simp

end

/-- The pairs `process_directory` processes are the tree's ".svg" files,
mapped path-for-path from `input_dir` into `output_dir`. -/
theorem plannedPairs_eq (input_dir output_dir : Path) (tree : DirTree) :
    plannedPairs input_dir output_dir tree
    = (svgRelT tree).map (fun rel => (input_dir ++ rel, output_dir ++ rel)) := by
  have h := walkT_pairs input_dir output_dir [] tree
  simp only [List.append_nil, List.nil_append] at h
  simpa [plannedPairs] using h

theorem String.mk_append_mk (a b : List Char) :
    String.mk a ++ String.mk b = String.mk (a ++ b) := rfl

/-- The two halves returned by `splitext` concatenate back to the input:
the path really is split (at its extension). -/
theorem splitext_fst_append_snd (p : String) :
    (splitext p).1 ++ (splitext p).2 = p := by
  unfold splitext
  cases h : rfind p.data '.' with
  | none => simp [h]
  | some dotIndex =>
    simp only [h]
    split
    · split
      · simp
      · rw [String.mk_append_mk, List.take_append_drop]
    · simp

/-- The empty filesystem. -/
def emptyFS : FS := fun _ => none

/-- The empty directory. -/
def emptyTree : DirTree := DirTree.node [] DirForest.nil

/-- World in which `picosvg` exits non-zero on every input, having written
nothing to its standard output. -/
def envPicoFail : Env where
  pico := fun _ => PicoOutcome.fail 0
  geomFail := fun _ => none
  loadDoc := fun _ => { ops := [], bbox := none }

/-- World in which `picosvg` succeeds with 3 bytes of output but
`SVG.load_svg` raises. -/
def envGeomFail : Env where
  pico := fun _ => PicoOutcome.ok 3
  geomFail := fun _ => some GeomStep.load
  loadDoc := fun _ => { ops := [], bbox := none }

/-- World in which `picosvg` succeeds with an empty output file. -/
def envEmptyOut : Env where
  pico := fun _ => PicoOutcome.ok 0
  geomFail := fun _ => none
  loadDoc := fun _ => { ops := [], bbox := none }

/-- World in which every step succeeds. -/
def envOk : Env where
  pico := fun _ => PicoOutcome.ok 7
  geomFail := fun _ => none
  loadDoc := fun _ => { ops := [], bbox := none }

/-- The saved file at `p` is a processed document whose bounding box is
`Bbox width height`. -/
def savedBboxMatches (fs : FS) (p : Path) (width height : Int) : Prop :=
  ∃ d : SVG, fs p = some (FileData.doc d) ∧ d.bbox = some (Bbox width height)

/-! ### The claims -/

/-- C1: the claim says that when the `picosvg` subprocess exits non-zero,
`process_single_file` returns failure and no output file remains on disk.
The first half holds, but the second does not: `preprocess_svg` opens the
output path for writing (creating the file) before running the subprocess,
and the early `return False` at line 99 skips the deletion logic, so the
(here empty) output file remains on disk.  This theorem evaluates the code
at such an input: the call fails, yet the output path holds a 0-byte
file. -/
theorem claim_C1_pico_fail_code_bug :
    (process_single_file envPicoFail ["icon.svg"] ["icon_processed.svg"]
        1 200 200 false 5 emptyFS).1 = false
    ∧ (process_single_file envPicoFail ["icon.svg"] ["icon_processed.svg"]
        1 200 200 false 5 emptyFS).2 ["icon_processed.svg"]
      = some (FileData.raw 0) := by
  decide

/-- C2: an exception raised in the load/transform/save steps is caught:
`process_single_file` returns failure with the partial output file deleted,
and in the batch loop the file contributes exactly one failure while
processing continues with the remaining files from the resulting
filesystem. -/
theorem claim_C2_geom_exception_isolated (env : Env)
    (input_path output_path : Path) (scale width height : Int)
    (simplify : Bool) (max_dist : Int) (fs : FS) (n : Nat) (step : GeomStep)
    (rest : List (Path × Path))
    (hp : env.pico input_path = PicoOutcome.ok (n + 1))
    (hg : env.geomFail input_path = some step) :
    (process_single_file env input_path output_path
        scale width height simplify max_dist fs).1 = false
    ∧ (process_single_file env input_path output_path
        scale width height simplify max_dist fs).2 output_path = none
    ∧ processFiles env scale width height simplify max_dist
        ((input_path, output_path) :: rest) fs
      = ((processFiles env scale width height simplify max_dist rest
            (process_single_file env input_path output_path
              scale width height simplify max_dist fs).2).1,
         (processFiles env scale width height simplify max_dist rest
            (process_single_file env input_path output_path
              scale width height simplify max_dist fs).2).2.1 + 1,
         (processFiles env scale width height simplify max_dist rest
            (process_single_file env input_path output_path
              scale width height simplify max_dist fs).2).2.2) := by
  have h1 := psf_geom_fail env input_path output_path
    scale width height simplify max_dist fs n step hp hg
  refine ⟨by rw [h1], by rw [h1]; exact FS.erase_self _ _, ?_⟩
  simp only [processFiles, h1]
  rcases processFiles env scale width height simplify max_dist rest
    ((fs.insert output_path (FileData.raw (n + 1))).erase output_path)
    with ⟨s, f, fs2⟩
  simp

/-- C2 witness: a concrete world in which `SVG.load_svg` raises. -/
theorem claim_C2_witness :
    envGeomFail.pico ["a.svg"] = PicoOutcome.ok (2 + 1)
    ∧ ((process_single_file envGeomFail ["a.svg"] ["b.svg"]
          1 200 200 false 5 emptyFS).1 = false
      ∧ (process_single_file envGeomFail ["a.svg"] ["b.svg"]
          1 200 200 false 5 emptyFS).2 ["b.svg"] = none
      ∧ processFiles envGeomFail 1 200 200 false 5
          [(["a.svg"], ["b.svg"])] emptyFS
        = ((processFiles envGeomFail 1 200 200 false 5 []
              (process_single_file envGeomFail ["a.svg"] ["b.svg"]
                1 200 200 false 5 emptyFS).2).1,
           (processFiles envGeomFail 1 200 200 false 5 []
              (process_single_file envGeomFail ["a.svg"] ["b.svg"]
                1 200 200 false 5 emptyFS).2).2.1 + 1,
           (processFiles envGeomFail 1 200 200 false 5 []
              (process_single_file envGeomFail ["a.svg"] ["b.svg"]
                1 200 200 false 5 emptyFS).2).2.2)) :=
  ⟨by decide,
   claim_C2_geom_exception_isolated envGeomFail ["a.svg"] ["b.svg"]
     1 200 200 false 5 emptyFS 2 GeomStep.load [] (by decide) (by decide)⟩

/-- C3: `process_directory` returns `(success_count, failure_count)` whose
sum is the number of files with names ending in ".svg" under the input
directory tree. -/
theorem claim_C3_counts_sum_to_svg_total (env : Env)
    (input_dir output_dir : Path) (scale width height : Int)
    (simplify : Bool) (max_dist : Int) (tree : DirTree) (fs : FS) :
    (process_directory env input_dir output_dir
        scale width height simplify max_dist tree fs).1.1
      + (process_directory env input_dir output_dir
          scale width height simplify max_dist tree fs).1.2
    = (svgRelT tree).length := by
  have hsum := processFiles_sum env scale width height simplify max_dist
    (plannedPairs input_dir output_dir tree) fs
  have hlen : (plannedPairs input_dir output_dir tree).length
      = (svgRelT tree).length := by
    rw [plannedPairs_eq]; simp
  unfold process_directory
  rcases hpf : processFiles env scale width height simplify max_dist
    (plannedPairs input_dir output_dir tree) fs with ⟨s, f, fs1⟩
  rw [hpf] at hsum
  simpa [hlen] using hsum

/-- C4: with `--output` absent, the single-file output path is
`f"{base}_processed{ext}"` where `base, ext = os.path.splitext(input)`,
and those two parts concatenate back to the input path: the output is the
input path with `_processed` inserted at its extension split point. -/
theorem claim_C4_default_output_path (input : String) :
    defaultOutputPath input
      = (splitext input).1 ++ "_processed" ++ (splitext input).2
    ∧ (splitext input).1 ++ (splitext input).2 = input := by
  constructor
  · unfold defaultOutputPath
    rcases h : splitext input with ⟨base, ext⟩
    rfl
  · exact splitext_fst_append_snd input

/-- C5: in single-file mode, `main` exits with status 1 exactly when
`process_single_file` reports failure, and completes normally when it
reports success. -/
theorem claim_C5_single_mode_exit_status (env : Env) (args : Args)
    (tree : DirTree) (fs : FS) (input : Path)
    (hi : args.input = some input) (hd : args.input_dir = none) :
    mainRun env args tree fs
      = (if (process_single_file env input
              (match args.output with
               | none => defaultOutputPathP input
               | some o => o)
              args.scale args.width args.height args.simplify args.max_dist
              fs).1
         then MainResult.completed else MainResult.exited 1,
         (process_single_file env input
            (match args.output with
             | none => defaultOutputPathP input
             | some o => o)
            args.scale args.width args.height args.simplify args.max_dist
            fs).2) := by
  unfold mainRun
  rcases hps : process_single_file env input
      (match args.output with
       | none => defaultOutputPathP input
       | some o => o)
      args.scale args.width args.height args.simplify args.max_dist fs
    with ⟨ok, fs1⟩
  cases ok <;> simp [hi, hd, hps]

/-- C5 witness: a concrete single-file run in which preprocessing fails,
so `main` exits with status 1. -/
theorem claim_C5_witness :
    ({ input := some [String.append "a" ".svg"], output := none,
       input_dir := none, output_dir := none, scale := 1, width := 200,
       height := 200, max_dist := 5, simplify := false : Args }).input
      = some [String.append "a" ".svg"]
    ∧ mainRun envPicoFail
        { input := some [String.append "a" ".svg"], output := none,
          input_dir := none, output_dir := none, scale := 1, width := 200,
          height := 200, max_dist := 5, simplify := false } emptyTree emptyFS
      = (if (process_single_file envPicoFail [String.append "a" ".svg"]
              (match (none : Option Path) with
               | none => defaultOutputPathP [String.append "a" ".svg"]
               | some o => o)
              1 200 200 false 5 emptyFS).1
         then MainResult.completed else MainResult.exited 1,
         (process_single_file envPicoFail [String.append "a" ".svg"]
            (match (none : Option Path) with
             | none => defaultOutputPathP [String.append "a" ".svg"]
             | some o => o)
            1 200 200 false 5 emptyFS).2) :=
  ⟨rfl,
   claim_C5_single_mode_exit_status envPicoFail
     { input := some [String.append "a" ".svg"], output := none,
       input_dir := none, output_dir := none, scale := 1, width := 200,
       height := 200, max_dist := 5, simplify := false }
     emptyTree emptyFS [String.append "a" ".svg"] rfl rfl⟩

/-- C6: `main` reports a parser error, leaving the filesystem untouched,
whenever both `--input` and `--input_dir` are given, and whenever neither
is. -/
theorem claim_C6_modes_mutually_exclusive (env : Env) (args : Args)
    (tree : DirTree) (fs : FS)
    (h : (args.input = none ∧ args.input_dir = none)
         ∨ (args.input ≠ none ∧ args.input_dir ≠ none)) :
    mainRun env args tree fs = (MainResult.parserError, fs) := by
  rcases h with ⟨h1, h2⟩ | ⟨h1, h2⟩
  · simp [mainRun, h1, h2]
  · rcases hi : args.input with _ | i
    · exact absurd hi h1
    rcases hd : args.input_dir with _ | d
    · exact absurd hd h2
    simp [mainRun, hi, hd]

/-- C6 witness: neither mode flag is given. -/
theorem claim_C6_witness :
    mainRun envOk
      { input := none, output := none, input_dir := none, output_dir := none,
        scale := 1, width := 200, height := 200, max_dist := 5,
        simplify := false } emptyTree emptyFS
    = (MainResult.parserError, emptyFS) :=
  claim_C6_modes_mutually_exclusive envOk
    { input := none, output := none, input_dir := none, output_dir := none,
      scale := 1, width := 200, height := 200, max_dist := 5,
      simplify := false } emptyTree emptyFS (Or.inl ⟨rfl, rfl⟩)

/-- C7: `process_svg` applies the geometry methods in a fixed order: zoom
with the scale factor, then normalization to `Bbox(width, height)`, and
exactly when `simplify` is set also `simplify_arcs`, then
`simplify_heuristic`, then `split` with `max_dist`, in that order. -/
theorem claim_C7_process_svg_fixed_order (svg : SVG)
    (scale width height : Int) (simplify : Bool) (max_dist : Int) :
    (process_svg svg scale width height simplify max_dist).ops
      = svg.ops ++ [GeomOp.zoom scale, GeomOp.normalize (Bbox width height)]
          ++ (if simplify then
                [GeomOp.simplify_arcs, GeomOp.simplify_heuristic,
                 GeomOp.split max_dist]
              else []) := by
  cases simplify <;>
    simp [process_svg, SVG.zoom, SVG.normalize, SVG.simplify_arcs,
      SVG.simplify_heuristic, SVG.split]

/-- C8: when the preprocessed output file is empty, `process_single_file`
removes it and returns failure, and its behaviour is independent of the
geometry library (any world with the same `picosvg` outcomes gives the
same result): the load/transform/save steps are never reached. -/
theorem claim_C8_empty_output_skipped (env env2 : Env)
    (input_path output_path : Path) (scale width height : Int)
    (simplify : Bool) (max_dist : Int) (fs : FS)
    (h : env.pico input_path = PicoOutcome.ok 0)
    (h2 : env2.pico = env.pico) :
    (process_single_file env input_path output_path
        scale width height simplify max_dist fs).1 = false
    ∧ (process_single_file env input_path output_path
        scale width height simplify max_dist fs).2 output_path = none
    ∧ process_single_file env2 input_path output_path
        scale width height simplify max_dist fs
      = process_single_file env input_path output_path
          scale width height simplify max_dist fs := by
  have h1 := psf_empty env input_path output_path
    scale width height simplify max_dist fs h
  have h2p : env2.pico input_path = PicoOutcome.ok 0 := by rw [h2, h]
  have h3 := psf_empty env2 input_path output_path
    scale width height simplify max_dist fs h2p
  exact ⟨by rw [h1], by rw [h1]; exact FS.erase_self _ _, by rw [h1, h3]⟩

/-- C8 witness: a concrete world in which `picosvg` writes an empty file;
the second world differs in the geometry steps yet gives the same result. -/
theorem claim_C8_witness :
    envEmptyOut.pico ["a.svg"] = PicoOutcome.ok 0
    ∧ ((process_single_file envEmptyOut ["a.svg"] ["b.svg"]
          1 200 200 false 5 emptyFS).1 = false
      ∧ (process_single_file envEmptyOut ["a.svg"] ["b.svg"]
          1 200 200 false 5 emptyFS).2 ["b.svg"] = none
      ∧ process_single_file
          { pico := fun _ => PicoOutcome.ok 0,
            geomFail := fun _ => some GeomStep.load,
            loadDoc := fun _ => { ops := [], bbox := none } }
          ["a.svg"] ["b.svg"] 1 200 200 false 5 emptyFS
        = process_single_file envEmptyOut ["a.svg"] ["b.svg"]
            1 200 200 false 5 emptyFS) :=
  ⟨rfl,
   claim_C8_empty_output_skipped envEmptyOut
     { pico := fun _ => PicoOutcome.ok 0,
       geomFail := fun _ => some GeomStep.load,
       loadDoc := fun _ => { ops := [], bbox := none } }
     ["a.svg"] ["b.svg"] 1 200 200 false 5 emptyFS rfl rfl⟩

/-- C9: whenever `process_single_file` reports success, the document saved
at the output path has bounding box `Bbox width height`. -/
theorem claim_C9_success_bbox (env : Env) (input_path output_path : Path)
    (scale width height : Int) (simplify : Bool) (max_dist : Int) (fs : FS)
    (h : (process_single_file env input_path output_path
        scale width height simplify max_dist fs).1 = true) :
    savedBboxMatches
      (process_single_file env input_path output_path
        scale width height simplify max_dist fs).2
      output_path width height := by
  rcases hp : env.pico input_path with k | n
  · rw [psf_pico_fail env input_path output_path
      scale width height simplify max_dist fs k hp] at h
    simp at h
  · cases n with
    | zero =>
      rw [psf_empty env input_path output_path
        scale width height simplify max_dist fs hp] at h
      simp at h
    | succ m =>
      rcases hg : env.geomFail input_path with _ | step
      · rw [psf_success env input_path output_path
          scale width height simplify max_dist fs m hp hg]
        exact ⟨process_svg (env.loadDoc input_path)
            scale width height simplify max_dist,
          FS.insert_self _ _ _,
          process_svg_bbox (env.loadDoc input_path)
            scale width height simplify max_dist⟩
      · rw [psf_geom_fail env input_path output_path
          scale width height simplify max_dist fs m step hp hg] at h
        simp at h

/-- C9 witness: a concrete fully successful run with `width = 200`,
`height = 300`. -/
theorem claim_C9_witness :
    (process_single_file envOk ["a.svg"] ["b.svg"]
        2 200 300 true 5 emptyFS).1 = true
    ∧ savedBboxMatches
        (process_single_file envOk ["a.svg"] ["b.svg"]
          2 200 300 true 5 emptyFS).2
        ["b.svg"] 200 300 :=
  ⟨by decide,
   claim_C9_success_bbox envOk ["a.svg"] ["b.svg"] 2 200 300 true 5 emptyFS
     (by decide)⟩

/-- C10: the input hierarchy is preserved: the `(input_path, output_path)`
pairs built by `process_directory`'s walk are exactly the tree's ".svg"
files, each at the same relative path under `input_dir` and under
`output_dir`. -/
theorem claim_C10_hierarchy_preserved (input_dir output_dir : Path)
    (tree : DirTree) :
    plannedPairs input_dir output_dir tree
      = (svgRelT tree).map (fun rel => (input_dir ++ rel, output_dir ++ rel)) :=
  plannedPairs_eq input_dir output_dir tree

end PreprocessSvg
